import Mathlib

/-!
Shallow embedding of the CRUD services of this repository:
* `src/employee.py`          — in-memory "items" service (list, get, create, update, delete);
* `src/backend/company/department/__init__.py` — in-memory departments service;
* `src/backend/company/employee/__init__.py`   — persisted employees service
  (SQL table with SERIAL ids, handlers with validation, health probe).

Stateful Python code becomes explicit state passing: the process-wide mutable
list is a `List` value threaded through each operation, and the SQL table is a
list of rows plus the SERIAL sequence counter.  Handlers return the HTTP status
code, the response payload, and the post-state.
-/

/-! ## In-memory items service (`src/employee.py`) -/

structure Item where
  id : Nat
  name : String
  description : String
deriving DecidableEq, Repr

/-- The hardcoded initial `items` list of `src/employee.py`. -/
def items0 : List Item :=
  [ { id := 1, name := "Sample Item 1", description := "This is a sample item for testing" },
    { id := 2, name := "Sample Item 2", description := "Another sample item" },
    { id := 3, name := "Test Item", description := "A test item with some description" } ]

/-- A JSON request body for the items endpoints: each field may be absent. -/
structure ItemBody where
  name : Option String
  description : Option String
deriving DecidableEq, Repr

/-- `GET /items` — returns the whole list as-is. -/
def get_items (items : List Item) : List Item :=
  items

/-- `GET /items/<id>` — first item with the id, 200, else 404. -/
def get_item (items : List Item) (item_id : Nat) : Nat × Option Item :=
  match items.find? (fun it => it.id == item_id) with
  | some it => (200, some it)
  | none => (404, none)

/-- `new_id = max(item["id"] for item in items) + 1 if items else 1`. -/
def new_item_id (items : List Item) : Nat :=
  if items.isEmpty then 1 else (items.map (fun it => it.id)).foldr max 0 + 1

/-- `POST /items` — appends a fresh item; `name` defaults to `"Unnamed Item"`,
`description` to `""`; responds 201 with the new item. -/
def add_item (items : List Item) (body : ItemBody) : (Nat × Item) × List Item :=
  let new_item : Item :=
    { id := new_item_id items,
      name := body.name.getD "Unnamed Item",
      description := body.description.getD "" }
  ((201, new_item), items ++ [new_item])

/-- In-place mutation of the first item whose id matches, as `update_item`
does through the object returned by `next(...)`. -/
def updateFirst (items : List Item) (item_id : Nat) (body : ItemBody) : List Item :=
  match items with
  | [] => []
  | it :: rest =>
    if it.id == item_id then
      { id := it.id,
        name := body.name.getD it.name,
        description := body.description.getD it.description } :: rest
    else
      it :: updateFirst rest item_id body

/-- `PUT /items/<id>` — 404 and unchanged list when no item matches, else the
first matching item's `name`/`description` are overwritten from the body
(absent fields keep the old value) and the item is returned with 200. -/
def update_item (items : List Item) (item_id : Nat) (body : ItemBody) :
    (Nat × Option Item) × List Item :=
  match items.find? (fun it => it.id == item_id) with
  | none => ((404, none), items)
  | some it =>
    let updated : Item :=
      { id := it.id,
        name := body.name.getD it.name,
        description := body.description.getD it.description }
    ((200, some updated), updateFirst items item_id body)

/-- `DELETE /items/<id>` — if a matching item exists, filter out every item
with the id and respond 200; otherwise 404 and unchanged list. -/
def delete_item (items : List Item) (item_id : Nat) : Nat × List Item :=
  if items.any (fun it => it.id == item_id) then
    (200, items.filter (fun it => it.id != item_id))
  else
    (404, items)

/-! ## In-memory departments service (`src/backend/company/department/__init__.py`) -/

structure Dept where
  id : Nat
  name : String
  description : String
deriving DecidableEq, Repr

/-- The hardcoded initial `departments` list. -/
def departments0 : List Dept :=
  [ { id := 1, name := "Engineering", description := "Builds product" },
    { id := 2, name := "Operations", description := "Keeps things running" } ]

structure DeptBody where
  name : Option String
  description : Option String
deriving DecidableEq, Repr

/-- `max((d["id"] for d in departments), default=0) + 1`. -/
def next_id (departments : List Dept) : Nat :=
  (departments.map (fun d => d.id)).foldr max 0 + 1

/-- `GET /` — returns the list as-is. -/
def list_departments (departments : List Dept) : List Dept :=
  departments

/-- `POST /` — appends a department with id `next_id`; `name` and
`description` default to `""`; responds 201 with the new department. -/
def create_department (departments : List Dept) (body : DeptBody) :
    (Nat × Dept) × List Dept :=
  let dep : Dept :=
    { id := next_id departments,
      name := body.name.getD "",
      description := body.description.getD "" }
  ((201, dep), departments ++ [dep])

/-- `DELETE /<id>` — always responds 200 with `{"deleted_id": dept_id}` and
filters the list, whether or not the id was present. -/
def delete_department (departments : List Dept) (dept_id : Nat) :
    (Nat × Nat) × List Dept :=
  ((200, dept_id), departments.filter (fun d => d.id != dept_id))

/-! ## Persisted employees service (`src/backend/company/employee/__init__.py`)

The `employees` table: `id SERIAL PRIMARY KEY`, string columns, `created_at`
and `updated_at` timestamps.  The SERIAL sequence is the `nextId` field;
timestamps are naturals supplied as a `now` argument where the SQL uses
`CURRENT_TIMESTAMP`. -/

structure EmpRow where
  id : Nat
  first_name : String
  last_name : String
  zip_code : String
  created_at : Nat
  updated_at : Nat
deriving DecidableEq, Repr

structure EmpTable where
  rows : List EmpRow
  nextId : Nat
deriving DecidableEq, Repr

structure EmpBody where
  first_name : Option String
  last_name : Option String
  zip_code : Option String
deriving DecidableEq, Repr

/-- `DatabaseManager.create_employee`: INSERT .. RETURNING; the SERIAL
sequence assigns the id, `created_at` is `CURRENT_TIMESTAMP`. -/
def db_create_employee (db : EmpTable) (first last zip : String) (now : Nat) :
    EmpRow × EmpTable :=
  let row : EmpRow :=
    { id := db.nextId, first_name := first, last_name := last,
      zip_code := zip, created_at := now, updated_at := now }
  (row, { rows := db.rows ++ [row], nextId := db.nextId + 1 })

/-- Descending `created_at` order used by `ORDER BY created_at DESC`. -/
def createdDesc (a b : EmpRow) : Prop :=
  b.created_at ≤ a.created_at

instance : DecidableRel createdDesc :=
  fun a b => Nat.decLe b.created_at a.created_at

instance : IsTotal EmpRow createdDesc :=
  ⟨fun a b => le_total b.created_at a.created_at⟩

instance : IsTrans EmpRow createdDesc :=
  ⟨fun _ _ _ h1 h2 => le_trans h2 h1⟩

/-- `DatabaseManager.get_all_employees`: `SELECT .. ORDER BY created_at DESC`. -/
def get_all_employees (db : EmpTable) : List EmpRow :=
  List.insertionSort createdDesc db.rows

/-- `DatabaseManager.get_employee_by_id`: `SELECT .. WHERE id = %s`, fetchone. -/
def get_employee_by_id (db : EmpTable) (employee_id : Nat) : Option EmpRow :=
  db.rows.find? (fun r => r.id == employee_id)

/-- `DatabaseManager.update_employee`: `UPDATE .. WHERE id = %s RETURNING ..`;
returns the updated row or `none` when no row matched. -/
def db_update_employee (db : EmpTable) (employee_id : Nat)
    (first last zip : String) (now : Nat) : Option EmpRow × EmpTable :=
  let rows2 := db.rows.map (fun r =>
    if r.id == employee_id then
      { r with first_name := first, last_name := last,
               zip_code := zip, updated_at := now }
    else r)
  (rows2.find? (fun r => r.id == employee_id), { db with rows := rows2 })

/-- The fixed seed rows of `init_employees_table`, inserted with consecutive
SERIAL ids starting at `startId` and default `CURRENT_TIMESTAMP` columns. -/
def seed_rows_from (startId : Nat) (now : Nat) : List EmpRow :=
  [ { id := startId, first_name := "Alice", last_name := "Smith",
      zip_code := "12345", created_at := now, updated_at := now },
    { id := startId + 1, first_name := "Bob", last_name := "Johnson",
      zip_code := "67890", created_at := now, updated_at := now },
    { id := startId + 2, first_name := "Carol", last_name := "Williams",
      zip_code := "11111", created_at := now, updated_at := now },
    { id := startId + 3, first_name := "David", last_name := "Brown",
      zip_code := "22222", created_at := now, updated_at := now } ]

/-- `DatabaseManager.init_employees_table`: `CREATE TABLE IF NOT EXISTS`
(absent table becomes an empty one with a fresh sequence), then
`SELECT COUNT(*)`, and the seed rows are inserted only when the count is 0. -/
def init_employees_table (now : Nat) (s : Option EmpTable) : Option EmpTable :=
  let t : EmpTable :=
    match s with
    | none => { rows := [], nextId := 1 }
    | some t => t
  if t.rows.length = 0 then
    some { rows := t.rows ++ seed_rows_from t.nextId now, nextId := t.nextId + 4 }
  else
    some t

/-! ### Employee HTTP handlers -/

/-- Python's `str.strip()`: drop leading and trailing whitespace. -/
def pyStrip (s : String) : String :=
  String.mk (((s.data.dropWhile Char.isWhitespace).reverse.dropWhile
    Char.isWhitespace).reverse)

/-- `POST /` (`create_employee`): strips `first_name`/`last_name`/`zip_code`
(absent fields default to `""`), responds 400 without touching the store when
either required field is empty after stripping, else inserts and responds 201
with the created row. -/
def create_employee_handler (db : EmpTable) (body : EmpBody) (now : Nat) :
    (Nat × Option EmpRow) × EmpTable :=
  let first := pyStrip (body.first_name.getD "")
  let last := pyStrip (body.last_name.getD "")
  let zip := pyStrip (body.zip_code.getD "")
  if first = "" ∨ last = "" then
    ((400, none), db)
  else
    let (emp, db2) := db_create_employee db first last zip now
    ((201, some emp), db2)

/-- `PUT /<id>` (`update_employee`): same validation as create (400 first),
then delegates to the store update; 200 with the row, or 404 when the store
reports no matching row. -/
def update_employee_handler (db : EmpTable) (emp_id : Nat) (body : EmpBody)
    (now : Nat) : (Nat × Option EmpRow) × EmpTable :=
  let first := pyStrip (body.first_name.getD "")
  let last := pyStrip (body.last_name.getD "")
  let zip := pyStrip (body.zip_code.getD "")
  if first = "" ∨ last = "" then
    ((400, none), db)
  else
    match db_update_employee db emp_id first last zip now with
    | (some emp, db2) => ((200, some emp), db2)
    | (none, db2) => ((404, none), db2)

/-- `GET /<id>` (`get_employee`): 200 with the row, 404 when absent. -/
def get_employee_handler (db : EmpTable) (emp_id : Nat) : Nat × Option EmpRow :=
  match get_employee_by_id db emp_id with
  | some emp => (200, some emp)
  | none => (404, none)

/-! ### Health probe and handler error branches

The health probe's outcome depends on whether the `SELECT COUNT(*)` round
trip succeeds; the `Except` argument is that outcome (`error e` carries the
driver exception text `str(e)`).  The `*_catch` functions are the literal
`except` branches of the other handlers, as functions of the exception text. -/

structure HealthPayload where
  status : String
  service : String
  database : String
  employee_count : Option Nat
  error : Option String
deriving DecidableEq, Repr

/-- `GET /health` (`health_check`). -/
def health_check (conn : Except String EmpTable) : Nat × HealthPayload :=
  match conn with
  | Except.ok db =>
    (200, { status := "healthy", service := "employee", database := "connected",
            employee_count := some db.rows.length, error := none })
  | Except.error e =>
    (500, { status := "unhealthy", service := "employee",
            database := "disconnected", employee_count := none,
            error := some e })

def list_employees_catch (_e : String) : Nat × String :=
  (500, "Failed to retrieve employees")

def get_employee_catch (_e : String) : Nat × String :=
  (500, "Failed to retrieve employee")

def create_employee_catch (_e : String) : Nat × String :=
  (500, "Failed to create employee")

def update_employee_catch (_e : String) : Nat × String :=
  (500, "Failed to update employee")

def delete_employee_catch (_e : String) : Nat × String :=
  (500, "Failed to delete employee")

/-! ## Shared helper lemmas -/

lemma mem_le_foldr_max (l : List Nat) (x : Nat) (hx : x ∈ l) : x ≤ l.foldr max 0 := by
  induction l with
  | nil => cases hx
  | cons a t ih =>
    rcases List.mem_cons.mp hx with h | h
    · subst h; exact le_max_left _ _
    · exact le_trans (ih h) (le_max_right _ _)

/-! ## Claim theorems -/

/-- Claim C1: a create request whose required `first_name` or `last_name` is
absent or whitespace-only after trimming gets a 400 and leaves the store
untouched (row count unchanged); otherwise the handler delegates to the
store's create and responds 201 with the created record. -/
theorem C1_create_validation (db : EmpTable) (body : EmpBody) (now : Nat) :
    ((pyStrip (body.first_name.getD "") = "" ∨ pyStrip (body.last_name.getD "") = "") →
      (create_employee_handler db body now).1.1 = 400 ∧
      (create_employee_handler db body now).2 = db ∧
      (create_employee_handler db body now).2.rows.length = db.rows.length) ∧
    (pyStrip (body.first_name.getD "") ≠ "" → pyStrip (body.last_name.getD "") ≠ "" →
      (create_employee_handler db body now).1.1 = 201 ∧
      (create_employee_handler db body now).1.2 =
        some (db_create_employee db (pyStrip (body.first_name.getD ""))
          (pyStrip (body.last_name.getD "")) (pyStrip (body.zip_code.getD "")) now).1 ∧
      (create_employee_handler db body now).2 =
        (db_create_employee db (pyStrip (body.first_name.getD ""))
          (pyStrip (body.last_name.getD "")) (pyStrip (body.zip_code.getD "")) now).2) := by
  constructor
  · intro h
    simp [create_employee_handler, if_pos h]
  · intro h1 h2
    have h : ¬((pyStrip (body.first_name.getD "") = "") ∨
        (pyStrip (body.last_name.getD "") = "")) := fun hc => hc.elim h1 h2
    simp [create_employee_handler, if_neg h, db_create_employee]

/-- A one-row employee table used as a concrete input in witnesses. -/
def empRow5 : EmpRow :=
  { id := 5, first_name := "A", last_name := "B", zip_code := "",
    created_at := 0, updated_at := 0 }

def empTable5 : EmpTable :=
  { rows := [empRow5], nextId := 6 }

/-- The empty employee table with a fresh SERIAL sequence. -/
def emptyEmp : EmpTable :=
  { rows := [], nextId := 1 }

def bodyBlank : EmpBody :=
  { first_name := some "   ", last_name := some "Lee", zip_code := none }

def bodyCarol : EmpBody :=
  { first_name := some "Carol", last_name := some "Lee", zip_code := none }

/-- Witness for C1 at concrete inputs: a whitespace-only first name is
rejected with 400, and a valid body is accepted with 201. -/
theorem C1_create_validation_witness :
    (create_employee_handler emptyEmp bodyBlank 7).1.1 = 400 ∧
    (create_employee_handler emptyEmp bodyCarol 7).1.1 = 201 :=
  ⟨((C1_create_validation emptyEmp bodyBlank 7).1 (Or.inl (by decide))).1,
   ((C1_create_validation emptyEmp bodyCarol 7).2 (by decide) (by decide)).1⟩

/-- Claim C5: deleting an id and then getting it always yields the
"not found" outcome (404, no payload), for every store state and id. -/
theorem C5_delete_then_get (s : List Item) (item_id : Nat) :
    get_item (delete_item s item_id).2 item_id = (404, none) := by
  have key : ((delete_item s item_id).2).find? (fun it => it.id == item_id) = none := by
    by_cases h : s.any (fun it => it.id == item_id)
    · simp only [delete_item, if_pos h]
      rw [List.find?_eq_none]
      intro x hx
      have hmem := (List.mem_filter.mp hx).2
      simpa using hmem
    · simp only [delete_item, if_neg h]
      rw [List.find?_eq_none]
      have h2 : s.any (fun it => it.id == item_id) = false :=
        Bool.eq_false_iff.mpr h
      exact List.any_eq_false.mp h2
  unfold get_item
  rw [key]

/-- Claim C8: the health probe responds 200/"healthy" with the row count on
success and 500/"unhealthy" echoing the engine error text on failure, and it
is the only handler whose error response depends on that text (every other
handler's catch branch is a constant generic message). -/
theorem C8_health_probe :
    (∀ db : EmpTable, health_check (Except.ok db) =
      (200, { status := "healthy", service := "employee", database := "connected",
              employee_count := some db.rows.length, error := none })) ∧
    (∀ e : String, health_check (Except.error e) =
      (500, { status := "unhealthy", service := "employee",
              database := "disconnected", employee_count := none, error := some e })) ∧
    (∀ e1 e2 : String, list_employees_catch e1 = list_employees_catch e2) ∧
    (∀ e1 e2 : String, get_employee_catch e1 = get_employee_catch e2) ∧
    (∀ e1 e2 : String, create_employee_catch e1 = create_employee_catch e2) ∧
    (∀ e1 e2 : String, update_employee_catch e1 = update_employee_catch e2) ∧
    (∀ e1 e2 : String, delete_employee_catch e1 = delete_employee_catch e2) ∧
    health_check (Except.error "boom") ≠ health_check (Except.error "bang") := by
  refine ⟨fun _ => rfl, fun _ => rfl, fun _ _ => rfl, fun _ _ => rfl, fun _ _ => rfl,
    fun _ _ => rfl, fun _ _ => rfl, ?_⟩
  decide

/-! ### C2: id uniqueness and reuse -/

/-- The department record with id 2 in the initial list. -/
def dept2 : Dept :=
  { id := 2, name := "Operations", description := "Keeps things running" }

/-- Counterexample to C2: the record with id 2 exists initially, deleting id 2
removes it, and the very next create assigns id 2 again (`max(ids)+1` after
the maximal id was deleted), so an id of a deleted record IS reused. -/
theorem C2_id_reuse_counterexample :
    dept2 ∈ departments0 ∧
    dept2 ∉ (delete_department departments0 2).2 ∧
    (create_department (delete_department departments0 2).2
      { name := none, description := none }).1.2.id = 2 := by
  refine ⟨by decide, by decide, rfl⟩

lemma next_id_not_mem (ds : List Dept) : next_id ds ∉ ds.map (fun d => d.id) := by
  intro h
  have hb := mem_le_foldr_max _ _ h
  simp only [next_id] at hb
  omega

lemma new_item_id_not_mem (s : List Item) : new_item_id s ∉ s.map (fun it => it.id) := by
  intro h
  by_cases he : s.isEmpty = true
  · rw [List.isEmpty_iff] at he
    subst he
    cases h
  · have hb := mem_le_foldr_max _ _ h
    simp only [new_item_id, if_neg he] at hb
    omega

/-- States of the department list reachable from the initial one by the
create and delete handlers. -/
inductive DeptReach : List Dept → Prop where
  | init : DeptReach departments0
  | create (s : List Dept) (body : DeptBody) :
      DeptReach s → DeptReach (create_department s body).2
  | del (s : List Dept) (i : Nat) :
      DeptReach s → DeptReach (delete_department s i).2

/-- States of the items list reachable from the initial one by the create
and delete handlers. -/
inductive ItemsReach : List Item → Prop where
  | init : ItemsReach items0
  | create (s : List Item) (body : ItemBody) :
      ItemsReach s → ItemsReach (add_item s body).2
  | del (s : List Item) (i : Nat) :
      ItemsReach s → ItemsReach (delete_item s i).2

lemma deptReach_ids_nodup (s : List Dept) (h : DeptReach s) :
    (s.map (fun d => d.id)).Nodup := by
  induction h with
  | init => decide
  | create s body hr ih =>
    simp only [create_department, List.map_append]
    rw [List.nodup_append]
    refine ⟨ih, List.nodup_singleton _, ?_⟩
    intro x hx hx2
    simp only [List.map_cons, List.map_nil, List.mem_singleton] at hx2
    subst hx2
    exact next_id_not_mem s hx
  | del s i hr ih =>
    exact List.Nodup.sublist (List.Sublist.map _ (List.filter_sublist _)) ih

lemma itemsReach_ids_nodup (s : List Item) (h : ItemsReach s) :
    (s.map (fun it => it.id)).Nodup := by
  induction h with
  | init => decide
  | create s body hr ih =>
    simp only [add_item, List.map_append]
    rw [List.nodup_append]
    refine ⟨ih, List.nodup_singleton _, ?_⟩
    intro x hx hx2
    simp only [List.map_cons, List.map_nil, List.mem_singleton] at hx2
    subst hx2
    exact new_item_id_not_mem s hx
  | del s i hr ih =>
    by_cases hc : s.any (fun it => it.id == i)
    · simp only [delete_item, if_pos hc]
      exact List.Nodup.sublist (List.Sublist.map _ (List.filter_sublist _)) ih
    · simp only [delete_item, if_neg hc]
      exact ih

/-- Amended C2: in every state reachable by create and delete, record ids are
unique within the table; the no-reuse part of the claim is false (see the
counterexample), since `max(ids)+1` reassigns the id of a deleted maximal
record. -/
theorem C2_ids_unique :
    (∀ s : List Dept, DeptReach s → (s.map (fun d => d.id)).Nodup) ∧
    (∀ s : List Item, ItemsReach s → (s.map (fun it => it.id)).Nodup) :=
  ⟨deptReach_ids_nodup, itemsReach_ids_nodup⟩

/-- Witness for C2 at the initial states, reachable by the empty operation
sequence. -/
theorem C2_ids_unique_witness :
    (departments0.map (fun d => d.id)).Nodup ∧
    (items0.map (fun it => it.id)).Nodup :=
  ⟨C2_ids_unique.1 departments0 DeptReach.init,
   C2_ids_unique.2 items0 ItemsReach.init⟩

/-! ### C9: defaults for absent optional fields -/

/-- Counterexample to C9: on the items create, an absent `name` defaults to
`"Unnamed Item"`, not to the empty string. -/
theorem C9_unnamed_item_counterexample :
    (add_item items0 { name := none, description := none }).1.2.name =
      "Unnamed Item" ∧
    (add_item items0 { name := none, description := none }).1.2.name ≠ "" := by
  exact ⟨rfl, by decide⟩

/-- Amended C9: absent optional fields default to the empty string
(department name/description, item description, employee zip code), except
the items create where an absent `name` defaults to `"Unnamed Item"`;
required-ness is enforced only for the employee first/last name — the items
and department creates accept any body with 201. -/
theorem C9_absent_field_defaults (ds : List Dept) (s : List Item)
    (db : EmpTable) (bd : DeptBody) (bi : ItemBody) (be : EmpBody) (now : Nat) :
    (create_department ds bd).1.1 = 201 ∧
    (bd.name = none → (create_department ds bd).1.2.name = "") ∧
    (bd.description = none → (create_department ds bd).1.2.description = "") ∧
    (add_item s bi).1.1 = 201 ∧
    (bi.description = none → (add_item s bi).1.2.description = "") ∧
    (bi.name = none → (add_item s bi).1.2.name = "Unnamed Item") ∧
    (pyStrip (be.first_name.getD "") ≠ "" → pyStrip (be.last_name.getD "") ≠ "" →
      be.zip_code = none →
      (create_employee_handler db be now).1.1 = 201 ∧
      (create_employee_handler db be now).1.2 = some
        { id := db.nextId,
          first_name := pyStrip (be.first_name.getD ""),
          last_name := pyStrip (be.last_name.getD ""),
          zip_code := "", created_at := now, updated_at := now }) := by
  refine ⟨rfl, fun h => ?_, fun h => ?_, rfl, fun h => ?_, fun h => ?_, fun h1 h2 hz => ?_⟩
  · simp [create_department, h]
  · simp [create_department, h]
  · simp [add_item, h]
  · simp [add_item, h]
  · have h : ¬((pyStrip (be.first_name.getD "") = "") ∨
        (pyStrip (be.last_name.getD "") = "")) := fun hc => hc.elim h1 h2
    simp [create_employee_handler, if_neg h, db_create_employee, hz]
    rfl

/-- Witness for C9: an empty department body yields empty strings, an empty
item body yields the unnamed default, and a valid employee body with no zip
code yields an empty zip code in the created row. -/
theorem C9_absent_field_defaults_witness :
    (create_department departments0 { name := none, description := none }).1.2.name = "" ∧
    (add_item items0 { name := none, description := none }).1.2.description = "" ∧
    (create_employee_handler emptyEmp bodyCarol 7).1.2 = some
      { id := 1, first_name := "Carol", last_name := "Lee", zip_code := "",
        created_at := 7, updated_at := 7 } :=
  ⟨(C9_absent_field_defaults departments0 items0 emptyEmp
      { name := none, description := none } { name := none, description := none }
      bodyCarol 7).2.1 rfl,
   (C9_absent_field_defaults departments0 items0 emptyEmp
      { name := none, description := none } { name := none, description := none }
      bodyCarol 7).2.2.2.2.1 rfl,
   by
    have h := (C9_absent_field_defaults departments0 items0 emptyEmp
      { name := none, description := none } { name := none, description := none }
      bodyCarol 7).2.2.2.2.2.2 (by decide) (by decide) rfl
    simpa [emptyEmp, bodyCarol] using h.2⟩

/-! ### C7: idempotent initialization -/

/-- Claim C7: `init_employees_table` is idempotent — it creates the table
only when absent and seeds it only when empty, so a second run (with any
later timestamp) returns the state of the first run unchanged; a nonempty
table is returned untouched and an absent table becomes the seeded one. -/
theorem C7_init_idempotent (now now2 : Nat) (s : Option EmpTable) (t : EmpTable) :
    init_employees_table now2 (init_employees_table now s) =
      init_employees_table now s ∧
    (t.rows ≠ [] → init_employees_table now (some t) = some t) ∧
    (t.rows = [] → init_employees_table now (some t) =
      some { rows := seed_rows_from t.nextId now, nextId := t.nextId + 4 }) ∧
    init_employees_table now none =
      some { rows := seed_rows_from 1 now, nextId := 5 } := by
  refine ⟨?_, fun h => ?_, fun h => ?_, rfl⟩
  · rcases s with _ | t2
    · rfl
    · by_cases h : t2.rows.length = 0
      · have hnil : t2.rows = [] := List.length_eq_zero.mp h
        simp [init_employees_table, hnil, seed_rows_from]
      · simp [init_employees_table, h]
  · have h2 : t.rows.length ≠ 0 := fun hc => h (List.length_eq_zero.mp hc)
    simp [init_employees_table, h2]
  · simp [init_employees_table, h]

/-- Witness for C7: a nonempty table is left untouched, and re-running the
initializer on the freshly seeded empty table changes nothing. -/
theorem C7_init_idempotent_witness :
    init_employees_table 3 (some empTable5) = some empTable5 ∧
    init_employees_table 9 (init_employees_table 3 (some emptyEmp)) =
      init_employees_table 3 (some emptyEmp) ∧
    init_employees_table 3 (some emptyEmp) =
      some { rows := seed_rows_from 1 3, nextId := 5 } :=
  ⟨(C7_init_idempotent 3 9 (some empTable5) empTable5).2.1 (by decide),
   (C7_init_idempotent 3 9 (some emptyEmp) empTable5).1,
   by
    have h := (C7_init_idempotent 3 9 (some emptyEmp) emptyEmp).2.2.1 rfl
    simpa [emptyEmp] using h⟩

/-! ### C4: list ordering -/

/-- In a list sorted by descending `created_at`, a record with a strictly
larger `created_at` occurs at a strictly earlier position. -/
lemma sorted_desc_before (l : List EmpRow) (hs : l.Sorted createdDesc)
    (a b : EmpRow) (ha : a ∈ l) (hb : b ∈ l) (hab : a.created_at < b.created_at) :
    ∃ i j, ∃ hi : i < l.length, ∃ hj : j < l.length,
      i < j ∧ l.get ⟨i, hi⟩ = b ∧ l.get ⟨j, hj⟩ = a := by
  induction l with
  | nil => cases ha
  | cons c t ih =>
    rw [List.sorted_cons] at hs
    rcases List.mem_cons.mp hb with hbc | hbt
    · subst hbc
      have hat : a ∈ t := by
        rcases List.mem_cons.mp ha with hac | hat
        · exact absurd hab (by rw [hac]; exact lt_irrefl _)
        · exact hat
      rcases List.mem_iff_get.mp hat with ⟨⟨j, hj⟩, hjat⟩
      exact ⟨0, j + 1, Nat.succ_pos _, Nat.succ_lt_succ hj,
        Nat.succ_pos _, rfl, hjat⟩
    · rcases List.mem_cons.mp ha with hac | hat
      · exfalso
        have hle : b.created_at ≤ a.created_at := by
          rw [hac]; exact hs.1 b hbt
        exact absurd hab (not_lt.mpr hle)
      · rcases ih hs.2 hat hbt with ⟨i, j, hi, hj, hij, hgi, hgj⟩
        exact ⟨i + 1, j + 1, Nat.succ_lt_succ hi, Nat.succ_lt_succ hj,
          Nat.succ_lt_succ hij, hgi, hgj⟩

/-- Amended C4: the persisted variant's `list()` is a permutation of the
rows sorted by `created_at` descending — it is empty on the empty table and
a record created at a later time appears strictly before one created
earlier — while the in-memory variant's `list()` returns the backing list
as-is (insertion order, newest last). -/
theorem C4_list_ordering :
    (∀ db : EmpTable, (get_all_employees db).Perm db.rows) ∧
    (∀ db : EmpTable, db.rows = [] → get_all_employees db = []) ∧
    (∀ (db : EmpTable) (r1 r2 : EmpRow), r1 ∈ db.rows → r2 ∈ db.rows →
      r1.created_at < r2.created_at →
      ∃ i j, ∃ hi : i < (get_all_employees db).length,
        ∃ hj : j < (get_all_employees db).length,
        i < j ∧ (get_all_employees db).get ⟨i, hi⟩ = r2 ∧
          (get_all_employees db).get ⟨j, hj⟩ = r1) ∧
    (∀ s : List Item, get_items s = s) := by
  refine ⟨fun db => List.perm_insertionSort _ _,
    fun db h => by simp [get_all_employees, h, List.insertionSort],
    fun db r1 r2 h1 h2 h12 => ?_, fun s => rfl⟩
  have hs : (get_all_employees db).Sorted createdDesc :=
    List.sorted_insertionSort _ _
  have h1m : r1 ∈ get_all_employees db := by
    simpa [get_all_employees] using h1
  have h2m : r2 ∈ get_all_employees db := by
    simpa [get_all_employees] using h2
  exact sorted_desc_before _ hs _ _ h1m h2m h12

/-- A row created at time 4 and one created at time 9, in a table whose rows
happen to be stored oldest first. -/
def rowEarly : EmpRow :=
  { id := 1, first_name := "E", last_name := "Arly", zip_code := "",
    created_at := 4, updated_at := 4 }

def rowLate : EmpRow :=
  { id := 2, first_name := "L", last_name := "Ate", zip_code := "",
    created_at := 9, updated_at := 9 }

def twoRowTable : EmpTable :=
  { rows := [rowEarly, rowLate], nextId := 3 }

/-- Witness for C4: on a concrete two-row table the later-created row comes
out first. -/
theorem C4_list_ordering_witness :
    ∃ i j, ∃ hi : i < (get_all_employees twoRowTable).length,
      ∃ hj : j < (get_all_employees twoRowTable).length,
      i < j ∧ (get_all_employees twoRowTable).get ⟨i, hi⟩ = rowLate ∧
        (get_all_employees twoRowTable).get ⟨j, hj⟩ = rowEarly :=
  C4_list_ordering.2.2.1 twoRowTable rowEarly rowLate (by decide) (by decide)
    (by decide)

/-- The first and second items created (in that order) by the in-memory
items service, starting from the initial list. -/
def itemCreatedFirst : Item :=
  (add_item items0 { name := some "created first", description := none }).1.2

def itemsAfterOne : List Item :=
  (add_item items0 { name := some "created first", description := none }).2

def itemCreatedSecond : Item :=
  (add_item itemsAfterOne { name := some "created second", description := none }).1.2

def itemsAfterTwo : List Item :=
  (add_item itemsAfterOne { name := some "created second", description := none }).2

/-- Counterexample to C4: for the in-memory variant, after creating
`itemCreatedFirst` (time t1) and then `itemCreatedSecond` (time t2 > t1),
`get_items` returns the earlier-created record strictly BEFORE the
later-created one, so the t2 record does not appear before the t1 record. -/
theorem C4_insertion_order_counterexample :
    itemCreatedFirst ∈ get_items itemsAfterTwo ∧
    itemCreatedSecond ∈ get_items itemsAfterTwo ∧
    itemCreatedFirst ≠ itemCreatedSecond ∧
    (get_items itemsAfterTwo).indexOf itemCreatedFirst <
      (get_items itemsAfterTwo).indexOf itemCreatedSecond := by
  refine ⟨by decide, by decide, by decide, by decide⟩

/-! ### C6: update on a missing id -/

lemma map_update_id_of_no_match (rows : List EmpRow) (emp_id : Nat)
    (first last zip : String) (now : Nat) (h : ∀ r ∈ rows, r.id ≠ emp_id) :
    rows.map (fun r => if r.id == emp_id then
      { r with first_name := first, last_name := last, zip_code := zip,
               updated_at := now } else r) = rows := by
  induction rows with
  | nil => rfl
  | cons a t ih =>
    have ha : ¬(a.id == emp_id) = true := by
      simpa using h a (List.mem_cons_self a t)
    simp only [List.map_cons, if_neg ha]
    rw [ih (fun r hr => h r (List.mem_cons_of_mem _ hr))]

/-- Counterexample to C6: updating a nonexistent id with a body that fails
validation responds 400, not the claimed 404 (the store is still untouched:
validation short-circuits before the store call). -/
theorem C6_validation_before_404_counterexample :
    emptyEmp.rows = [] ∧
    (update_employee_handler emptyEmp 1
      { first_name := none, last_name := none, zip_code := none } 0).1.1 = 400 ∧
    (update_employee_handler emptyEmp 1
      { first_name := none, last_name := none, zip_code := none } 0).1.1 ≠ 404 ∧
    (update_employee_handler emptyEmp 1
      { first_name := none, last_name := none, zip_code := none } 0).2 = emptyEmp := by
  refine ⟨rfl, by decide, by decide, by decide⟩

/-- Amended C6: an update on an id not present in the store never mutates
the state; the in-memory handler responds 404 for every body, while the
persisted handler responds 400 when a required field is empty after
stripping and 404 otherwise. -/
theorem C6_update_missing_id (s : List Item) (item_id : Nat) (bi : ItemBody)
    (db : EmpTable) (emp_id : Nat) (be : EmpBody) (now : Nat) :
    ((∀ it ∈ s, it.id ≠ item_id) →
      update_item s item_id bi = ((404, none), s)) ∧
    ((∀ r ∈ db.rows, r.id ≠ emp_id) →
      (update_employee_handler db emp_id be now).2 = db ∧
      ((pyStrip (be.first_name.getD "") = "" ∨
        pyStrip (be.last_name.getD "") = "") →
        (update_employee_handler db emp_id be now).1.1 = 400) ∧
      (pyStrip (be.first_name.getD "") ≠ "" →
        pyStrip (be.last_name.getD "") ≠ "" →
        (update_employee_handler db emp_id be now).1.1 = 404)) := by
  constructor
  · intro h
    have hfind : s.find? (fun it => it.id == item_id) = none := by
      rw [List.find?_eq_none]
      intro x hx
      simpa using h x hx
    simp only [update_item, hfind]
  · intro h
    by_cases hv : (pyStrip (be.first_name.getD "") = "" ∨
        pyStrip (be.last_name.getD "") = "")
    · refine ⟨?_, fun _ => ?_, fun h1 h2 => absurd hv (fun hc => hc.elim h1 h2)⟩
      · simp only [update_employee_handler, if_pos hv]
      · simp only [update_employee_handler, if_pos hv]
    · have hmap := map_update_id_of_no_match db.rows emp_id
        (pyStrip (be.first_name.getD "")) (pyStrip (be.last_name.getD ""))
        (pyStrip (be.zip_code.getD "")) now h
      have hfind2 : db.rows.find? (fun r => r.id == emp_id) = none := by
        rw [List.find?_eq_none]
        intro x hx
        simpa using h x hx
      refine ⟨?_, fun hc => absurd hc hv, fun _ _ => ?_⟩ <;>
        simp only [update_employee_handler, if_neg hv, db_update_employee, hmap, hfind2]

/-- Witness for C6: with a missing id, the in-memory update answers 404 with
the list unchanged; the persisted update answers 404 on a valid body, 400 on
a whitespace-only required field, and leaves the table unchanged. -/
theorem C6_update_missing_id_witness :
    update_item items0 99 { name := some "X", description := none } =
      ((404, none), items0) ∧
    (update_employee_handler emptyEmp 1 bodyCarol 0).1.1 = 404 ∧
    (update_employee_handler emptyEmp 1 bodyBlank 0).1.1 = 400 ∧
    (update_employee_handler emptyEmp 1 bodyCarol 0).2 = emptyEmp :=
  ⟨(C6_update_missing_id items0 99 { name := some "X", description := none }
      emptyEmp 1 bodyCarol 0).1 (by decide),
   ((C6_update_missing_id items0 99 { name := some "X", description := none }
      emptyEmp 1 bodyCarol 0).2 (by decide)).2.2 (by decide) (by decide),
   ((C6_update_missing_id items0 99 { name := some "X", description := none }
      emptyEmp 1 bodyBlank 0).2 (by decide)).2.1 (Or.inl (by decide)),
   ((C6_update_missing_id items0 99 { name := some "X", description := none }
      emptyEmp 1 bodyCarol 0).2 (by decide)).1⟩

/-! ### C10: frame property of the in-memory update -/

lemma updateFirst_length (s : List Item) (i : Nat) (b : ItemBody) :
    (updateFirst s i b).length = s.length := by
  induction s with
  | nil => rfl
  | cons a t ih =>
    by_cases h : (a.id == i) = true
    · simp [updateFirst, h]
    · simp [updateFirst, h, ih]

lemma updateFirst_map_id (s : List Item) (i : Nat) (b : ItemBody) :
    (updateFirst s i b).map (fun it => it.id) = s.map (fun it => it.id) := by
  induction s with
  | nil => rfl
  | cons a t ih =>
    by_cases h : (a.id == i) = true
    · simp only [updateFirst, if_pos h, List.map_cons]
    · simp only [updateFirst, if_neg h, List.map_cons, ih]

lemma updateFirst_get_ne (s : List Item) (i : Nat) (b : ItemBody) (k : Nat)
    (hk : k < s.length) (hk2 : k < (updateFirst s i b).length)
    (hne : (s.get ⟨k, hk⟩).id ≠ i) :
    (updateFirst s i b).get ⟨k, hk2⟩ = s.get ⟨k, hk⟩ := by
  induction s generalizing k with
  | nil => cases hk
  | cons a t ih =>
    by_cases h : (a.id == i) = true
    · cases k with
      | zero => exact absurd (by simpa using h) hne
      | succ k =>
        have e : updateFirst (a :: t) i b =
            ({ id := a.id, name := b.name.getD a.name,
               description := b.description.getD a.description } : Item) :: t := by
          simp [updateFirst, h]
        revert hk2
        rw [e]
        intro hk2
        rfl
    · have e : updateFirst (a :: t) i b = a :: updateFirst t i b := by
        simp [updateFirst, h]
      cases k with
      | zero =>
        revert hk2
        rw [e]
        intro hk2
        rfl
      | succ k =>
        revert hk2
        rw [e]
        intro hk2
        exact ih k (Nat.lt_of_succ_lt_succ hk) (Nat.lt_of_succ_lt_succ hk2) hne

/-- Claim C10: an in-memory item update on an id present in the list keeps
the response at 200, the length unchanged, every item's id unchanged (so the
matched item keeps the path id), and every position holding an item with a
different id entirely unchanged. -/
theorem C10_update_frame (s : List Item) (item_id : Nat) (body : ItemBody)
    (h : ∃ it ∈ s, it.id = item_id) :
    (update_item s item_id body).1.1 = 200 ∧
    ((update_item s item_id body).2).length = s.length ∧
    ((update_item s item_id body).2).map (fun it => it.id) =
      s.map (fun it => it.id) ∧
    ∀ (k : Nat) (hk : k < s.length)
      (hk2 : k < ((update_item s item_id body).2).length),
      (s.get ⟨k, hk⟩).id ≠ item_id →
      ((update_item s item_id body).2).get ⟨k, hk2⟩ = s.get ⟨k, hk⟩ := by
  obtain ⟨it0, hmem, hid⟩ := h
  have hfind : (s.find? (fun it => it.id == item_id)).isSome = true := by
    rw [List.find?_isSome]
    exact ⟨it0, hmem, by simpa using hid⟩
  obtain ⟨it1, hit1⟩ := Option.isSome_iff_exists.mp hfind
  have e : update_item s item_id body =
      ((200,
        some { id := it1.id,
               name := body.name.getD it1.name,
               description := body.description.getD it1.description }),
       updateFirst s item_id body) := by
    simp [update_item, hit1]
  rw [e]
  exact ⟨rfl, updateFirst_length s item_id body, updateFirst_map_id s item_id body,
    fun k hk hk2 hne => updateFirst_get_ne s item_id body k hk hk2 hne⟩

/-- Witness for C10 at a concrete input: renaming item 2 of the initial list
answers 200 and preserves length and all ids. -/
theorem C10_update_frame_witness :
    (update_item items0 2 { name := some "X", description := none }).1.1 = 200 ∧
    ((update_item items0 2 { name := some "X", description := none }).2).length =
      items0.length ∧
    ((update_item items0 2 { name := some "X", description := none }).2).map
      (fun it => it.id) = items0.map (fun it => it.id) :=
  ⟨(C10_update_frame items0 2 { name := some "X", description := none }
      (by decide)).1,
   (C10_update_frame items0 2 { name := some "X", description := none }
      (by decide)).2.1,
   (C10_update_frame items0 2 { name := some "X", description := none }
      (by decide)).2.2.1⟩
